import Mathlib

/-
Verification of the wifisocket protocol engine (wifisocket.py).

Shallow embedding conventions:
* Wire bytes are `List Nat` (each entry a byte value).
* The AES-CBC block cipher is abstracted as a length-preserving
  function parameter `blockEnc`/`dec`; the pycryptodome block-size
  check (ValueError on data not a multiple of 16 bytes) is modelled
  explicitly in `encrypt`.
* The blocking UDP environment is a function `Nat → AttemptEvent`
  giving, for each send attempt, what the OS delivered: an OS-level
  send failure, a receive timeout, or a received datagram.
* Uncaught Python exceptions (IndexError, UnboundLocalError,
  NameError) are modelled as explicit error outcomes.
-/

namespace Wifisocket

/-- Error-message values that `send` stores in its `message` variable
(the strings 'Timeout' and 'Bad return data'). -/
inductive PyMsg
  | timeoutMsg
  | badDataMsg
deriving DecidableEq, Repr

/-- Uncaught Python exceptions that can escape the modelled functions. -/
inductive PyError
  | indexError
  | unboundLocal
  | nameError
deriving DecidableEq, Repr

/-- What the OS delivers for one attempt of the send loop:
`sendto` raises OSError, `recv` raises socket.timeout, or `recv`
returns a datagram. -/
inductive AttemptEvent
  | sendError
  | timeout
  | recv (msg : List Nat)
deriving DecidableEq, Repr

/-- Classification of one loop iteration of `send` (wifisocket.py
lines 742-758).  A received datagram `msg` is accepted iff
`msg[1] == 66` and `len(msg[9:]) % 16 == 0`; evaluating `msg[1]` on a
datagram shorter than 2 bytes raises IndexError. -/
inductive StepResult
  | success (payload : List Nat)
  | badData
  | timedOut
  | sendFail
  | crashed
deriving DecidableEq, Repr

/-- One iteration of the retry loop body of `send`: mirrors the
`try: s.sendto / except OSError`, `try: s.recv / except socket.timeout`
and the reply-validation test `message[1] != 66 or
len(message[9:]) % 16 != 0` of wifisocket.py lines 743-758. -/
def attemptStep : AttemptEvent → StepResult
  | .sendError => .sendFail
  | .timeout => .timedOut
  | .recv (_ :: m1 :: rest) =>
    if m1 = 66 ∧ (rest.drop 7).length % 16 = 0 then .success (rest.drop 7)
    else .badData
  | .recv _ => .crashed

/-- Overall outcome of a `send` call: `(True, message[9:])`,
`(False, 'Timeout' | 'Bad return data')`, `(False, OSError)`,
an uncaught IndexError, or an uncaught NameError (only reachable
when the retry budget is 0). -/
inductive SendOutcome
  | ok (payload : List Nat)
  | fail (m : PyMsg)
  | osAbort
  | crash
  | nameError
deriving DecidableEq, Repr

/-- Result of a `send` call, together with whether `s.close()` was
executed before the function terminated and how many loop iterations
(send-and-wait attempts) were performed. -/
structure SendResult where
  outcome : SendOutcome
  closed : Bool
  attempts : Nat
deriving DecidableEq, Repr

/-- The retry loop `for n in range(repeat)` of `send` (wifisocket.py
lines 742-760).  `b` is the remaining budget, `i` the number of
attempts already performed, `last` the current value of the local
`message` variable when it holds an error string. -/
def sendLoop (env : Nat → AttemptEvent) : Nat → Nat → Option PyMsg → SendResult
  | 0, i, some m => ⟨.fail m, true, i⟩
  | 0, i, none => ⟨.nameError, true, i⟩
  | b + 1, i, _last =>
    match attemptStep (env i) with
    | .sendFail => ⟨.osAbort, true, i + 1⟩
    | .timedOut => sendLoop env b (i + 1) (some .timeoutMsg)
    | .badData => sendLoop env b (i + 1) (some .badDataMsg)
    | .success p => ⟨.ok p, true, i + 1⟩
    | .crashed =>
      -- IndexError in message[1] propagates; s.close() is never reached.
      ⟨.crash, false, i + 1⟩

/-- The global retry budget (wifisocket.py line 236: `repeat = 3`). -/
def retryBudget : Nat := 3

/-- The `send` function of wifisocket.py (lines 723-760), run against
an environment of per-attempt events. -/
def send (env : Nat → AttemptEvent) : SendResult :=
  sendLoop env retryBudget 0 none

/-- The error string that one attempt records in the local `message`
variable (`'Timeout'` on a receive timeout, `'Bad return data'` on a
reply failing validation), if any. -/
def eventErr (e : AttemptEvent) : Option PyMsg :=
  match attemptStep e with
  | .timedOut => some .timeoutMsg
  | .badData => some .badDataMsg
  | _ => none

/- ---------------------------------------------------------------
Timer active+repeat byte (set_timer line 455, timer_query lines 397-398).
A repeat mask is a Monday-first list of 7 booleans ('1' = repeat).
--------------------------------------------------------------- -/

/-- Value of a binary digit string read most-significant-first, as
computed by Python `int(s, 2)`. -/
def bitsToNat (bs : List Bool) : Nat :=
  bs.foldl (fun a b => 2 * a + (if b then 1 else 0)) 0

/-- Line 455 of set_timer:
`int(("1" if active else "0") + repeat[::-1], 2)` — the wire byte
packing the active flag (top bit) and the reversed weekday mask. -/
def encode_repeat (active : Bool) (rep : List Bool) : Nat :=
  bitsToNat (active :: rep.reverse)

/-- The 8-character binary rendering `f'\x7bm:08b\x7d'` of a byte,
most significant bit first. -/
def byteBits8 (n : Nat) : List Bool :=
  (List.range 8).map (fun i => n.testBit (7 - i))

/-- Line 397 of timer_query: `f'...:08b'[0] == '1'` — the active flag
is the top bit of the wire byte. -/
def decode_active (n : Nat) : Bool :=
  (byteBits8 n).getD 0 false

/-- Line 398 of timer_query: `f'...:08b'[-1:0:-1]` — drop the top bit
and reverse, recovering the Monday-first weekday mask. -/
def decode_repeat (n : Nat) : List Bool :=
  ((byteBits8 n).drop 1).reverse

/- ---------------------------------------------------------------
delta_time resolution (timer_query lines 393-394, set_timer lines
466-467): `if not delta_time: delta_time = time.timezone`.
A passed value of 0 is falsy, exactly like passing None.
--------------------------------------------------------------- -/

/-- Lines 393-394 of timer_query; `tz` is `time.timezone`. -/
def timer_query_delta (tz : Int) (delta_time : Option Int) : Int :=
  match delta_time with
  | none => tz
  | some d => if d = 0 then tz else d

/-- Lines 466-467 of set_timer; `tz` is `time.timezone`. -/
def set_timer_delta (tz : Int) (delta_time : Option Int) : Int :=
  match delta_time with
  | none => tz
  | some d => if d = 0 then tz else d

/- ---------------------------------------------------------------
Discovery: find_sockets (lines 241-279).
--------------------------------------------------------------- -/

/-- One discovered device: the 6 MAC bytes `message[12:18]` and the
4 IP octets `message[8..11]` of the decrypted reply payload. -/
structure SocketRec where
  mac : List Nat
  ip : List Nat
deriving DecidableEq, Repr

/-- Return shape of find_sockets: a list (wildcard filters) or a
single record (`socket_data[0]`, specific filter). -/
inductive FindRet
  | list (xs : List SocketRec)
  | single (x : SocketRec)
deriving DecidableEq, Repr

instance {ε α : Type} [DecidableEq ε] [DecidableEq α] :
    DecidableEq (Except ε α) := fun x y =>
  match x, y with
  | .ok a, .ok b =>
    if h : a = b then .isTrue (by rw [h])
    else .isFalse (by intro hc; cases hc; exact h rfl)
  | .error a, .error b =>
    if h : a = b then .isTrue (by rw [h])
    else .isFalse (by intro hc; cases hc; exact h rfl)
  | .ok _, .error _ => .isFalse (by intro hc; cases hc)
  | .error _, .ok _ => .isFalse (by intro hc; cases hc)

/-- Result of find_sockets, with the `s.close()` flag. -/
structure FindResult where
  ret : Except PyError FindRet
  closed : Bool
deriving DecidableEq, Repr

/-- The collection loop of find_sockets (lines 265-275): each received
datagram is validated with the same test as in `send`; a valid reply
is decrypted (`dec`) and its MAC/IP fields extracted.  Accessing
`message[8]`..`message[11]` of a decrypted payload shorter than 12
bytes, or `message[1]` of a datagram shorter than 2 bytes, raises an
uncaught IndexError. -/
def collectSockets (dec : List Nat → List Nat) :
    List (List Nat) → Except PyError (List SocketRec)
  | [] => .ok []
  | msg :: rest =>
    match attemptStep (.recv msg) with
    | .crashed => .error .indexError
    | .success payload =>
      let d := dec payload
      if 12 ≤ d.length then
        match collectSockets dec rest with
        | .ok xs =>
          .ok (⟨(d.drop 12).take 6,
                [d.getD 8 0, d.getD 9 0, d.getD 10 0, d.getD 11 0]⟩ :: xs)
        | .error e => .error e
      else .error .indexError
    | _ => collectSockets dec rest

/-- The default (wildcard) MAC filter of find_sockets. -/
def wildMac : String := "FF FF FF FF FF FF"

/-- The default (wildcard) IP filter of find_sockets. -/
def wildIp : String := "255.255.255.255"

/-- find_sockets (lines 241-279): collect all structurally valid
replies; then, iff a non-wildcard MAC or IP filter was supplied, take
`socket_data[0]` — which raises IndexError when no reply was
collected (after `s.close()` on line 276 has already run). -/
def find_sockets (dec : List Nat → List Nat) (mac ip : String)
    (replies : List (List Nat)) : FindResult :=
  match collectSockets dec replies with
  | .error e => ⟨.error e, false⟩
  | .ok socket_data =>
    if mac ≠ wildMac ∨ ip ≠ wildIp then
      match socket_data with
      | [] => ⟨.error .indexError, true⟩
      | x :: _ => ⟨.ok (.single x), true⟩
    else ⟨.ok (.list socket_data), true⟩

/- ---------------------------------------------------------------
Command assembly: assemble_command (lines 682-690) and the CMD_*
constants (lines 198-227), at byte level (the Python code builds hex
strings that are converted by bytes.fromhex before sending).
--------------------------------------------------------------- -/

/-- Default packet sequence `packet = 'FF FF'` (line 231). -/
def packetBytes : List Nat := [0xFF, 0xFF]

/-- Default device code `device = SWS_A1 = 'C1 11 71 50'` (lines
194, 230). -/
def deviceBytes : List Nat := [0xC1, 0x11, 0x71, 0x50]

/-- CMD_HEADER `'00 \x7bpacket\x7d \x7bdevice\x7d'` (line 200) with
the default packet and device values. -/
def cmdHeader : List Nat := 0x00 :: (packetBytes ++ deviceBytes)

/-- CMD_INIT `'01 40 \x7bmac\x7d'` (line 199). -/
def cmdInit (mac : List Nat) : List Nat := 0x01 :: 0x40 :: mac

/-- Failures of the encryption step: pycryptodome raises ValueError
when the data length is not a multiple of 16, and `to_bytes(1, ...)`
raises OverflowError on a value above 255. -/
inductive CipherErr
  | invalidBlockSize
  | byteOverflow
deriving DecidableEq, Repr

/-- The `encrypt` helper (lines 693-696): AES-CBC with fixed key/IV,
abstracted as the length-preserving block transform `blockEnc`.
pycryptodome rejects input whose length is not a multiple of 16. -/
def encrypt (blockEnc : List Nat → List Nat) (data : List Nat) :
    Except CipherErr (List Nat) :=
  if data.length % 16 = 0 then .ok (blockEnc data) else .error .invalidBlockSize

/-- assemble_command (lines 682-690): plaintext prefix CMD_INIT,
then one length byte `len(crypted_part).to_bytes(1, 'big')`, then the
encrypted block over CMD_HEADER ++ command body. -/
def assemble_command (blockEnc : List Nat → List Nat) (mac body : List Nat) :
    Except CipherErr (List Nat) :=
  match encrypt blockEnc (cmdHeader ++ body) with
  | .error e => .error e
  | .ok c =>
    if c.length ≤ 255 then .ok (cmdInit mac ++ c.length :: c)
    else .error .byteOverflow

/-- Big-endian fixed-width byte rendering, as produced by the
fixed-width hex format fields (e.g. `:08x` gives 4 bytes) for values
within the field width. -/
def toBytesBE : Nat → Nat → List Nat
  | 0, _ => []
  | k + 1, n => toBytesBE k (n / 256) ++ [n % 256]

/-- The operations of the command set, with the parameters that are
substituted into the CMD_* format strings. -/
inductive Operation
  | search (mac : List Nat)
  | switchOn
  | switchOff
  | getState
  | timerQuery
  | setTimer (timer rep hour minute : Nat) (onOff : Bool)
  | deleteTimer (timer : Nat)
  | amQuery
  | setAM (active from_ to_ : Nat)
  | deleteAM
  | heartbeat
deriving DecidableEq, Repr

/-- The operation body bytes, from the CMD_* constants (lines
198-227) with parameters substituted as the calling functions do
(switch lines 289-292, set_timer lines 455-480, delete_timer line
530, set_absence_mode lines 580-589, etc.). -/
def opBody : Operation → List Nat
  | .search mac => 0x23 :: (mac ++ [0x02, 0x02])
  | .switchOn => [0x01, 0x00, 0x00, 0xFF, 0xFF, 0x04, 0x04, 0x04, 0x04]
  | .switchOff => [0x01, 0x00, 0x00, 0x00, 0xFF, 0x04, 0x04, 0x04, 0x04]
  | .getState => [0x02, 0x00, 0x00, 0x00, 0x00, 0x04, 0x04, 0x04, 0x04]
  | .timerQuery => [0x04, 0x00, 0x00, 0x06, 0x06, 0x06, 0x06, 0x06, 0x06]
  | .setTimer timer rep hour minute onOff =>
    [0x03, 0x00, timer, rep, hour, minute]
      ++ (if onOff then [0x00, 0x00, 0xFF, 0xFF] else [0x00, 0x00, 0x00, 0xFF])
      ++ List.replicate 15 0x0F
  | .deleteTimer timer => [0x05, 0x00, timer, 0x06, 0x06, 0x06, 0x06, 0x06, 0x06]
  | .amQuery => [0x0A, 0x08, 0x08, 0x08, 0x08, 0x08, 0x08, 0x08, 0x08]
  | .setAM active from_ to_ =>
    [0x09, active] ++ toBytesBE 4 from_ ++ toBytesBE 4 to_ ++ [0x1E]
      ++ List.replicate 14 0x0E
  | .deleteAM =>
    [0x09, 0x00, 0x00, 0x00, 0x00, 0x00, 0x00, 0x00, 0x00, 0x00, 0x0E]
      ++ List.replicate 14 0x0E
  | .heartbeat => [0x61, 0x55, 0x93, 0x26, 0x54, 0x04, 0x04, 0x04, 0x04]

/-- Domain constraints under which the fixed-width format fields of
the CMD_* strings produce exactly the widths modelled by `opBody`
(each byte parameter below 256, each `:08x` timestamp below 2^32,
a 6-byte MAC). -/
def Operation.valid : Operation → Prop
  | .search mac => mac.length = 6
  | .setTimer timer rep hour minute _ =>
    timer < 256 ∧ rep < 256 ∧ hour < 256 ∧ minute < 256
  | .deleteTimer timer => timer < 256
  | .setAM active from_ to_ => active < 256 ∧ from_ < 2 ^ 32 ∧ to_ < 2 ^ 32
  | _ => True

/- ---------------------------------------------------------------
Command wrappers: result plumbing of the receipt-style commands
(switch lines 282-298, set_timer lines 482-486, set_countdown lines
489-503, set_absence_mode lines 565-595) and of switch_state
(lines 301-316).
--------------------------------------------------------------- -/

/-- Python-level return value of a receipt-style command. -/
inductive PyRet
  | trueV
  | errMsg (m : PyMsg)
  | errOs
  | excV
  | noneV
deriving DecidableEq, Repr

/-- The common receipt pattern `success, message = send(ip, cmd);
return success if success else message`, with uncaught exceptions
from `send` propagating. -/
def sendReceipt (env : Nat → AttemptEvent) : Except PyError PyRet :=
  match send env with
  | ⟨.ok _, _, _⟩ => .ok .trueV
  | ⟨.fail m, _, _⟩ => .ok (.errMsg m)
  | ⟨.osAbort, _, _⟩ => .ok .errOs
  | ⟨.crash, _, _⟩ => .error .indexError
  | ⟨.nameError, _, _⟩ => .error .nameError

/-- Result plumbing of set_timer (lines 482-486): returns the
receipt of its `send` call. -/
def set_timer_run (env : Nat → AttemptEvent) : Except PyError PyRet :=
  sendReceipt env

/-- set_countdown (lines 489-503): calls set_timer with slot 11,
active=True, repeat '0000000' — and has no `return` statement, so
whenever the delegated call returns normally, set_countdown itself
returns Python None. -/
def set_countdown_run (env : Nat → AttemptEvent) : Except PyError PyRet :=
  match set_timer_run env with
  | .ok _ => .ok .noneV
  | .error e => .error e

/-- Result of a command call, together with whether any `sendto`
(network send) was performed during the call. -/
structure OpResult where
  ret : Except PyError PyRet
  sent : Bool
deriving DecidableEq, Repr

/-- switch (lines 282-298): the local `cmd` is only assigned in the
`'on'` and `'off'` branches; any other argument leaves `cmd` unbound
and `send(ip, cmd)` raises UnboundLocalError before any network
traffic. -/
def switch_run (env : Nat → AttemptEvent) (on_off : String) : OpResult :=
  if on_off = "on" then ⟨sendReceipt env, true⟩
  else if on_off = "off" then ⟨sendReceipt env, true⟩
  else ⟨.error .unboundLocal, false⟩

/-- set_absence_mode (lines 565-595): `datetime.strptime` (modelled
by the parameter `parse`) is applied to `from_` and then `to_` inside
a try block; on failure the caught exception object is returned
before any network send. -/
def set_absence_mode_run (parse : String → Option Int)
    (env : Nat → AttemptEvent) (active : Bool) (from_ to_ : String) : OpResult :=
  match parse from_ with
  | none => ⟨.ok .excV, false⟩
  | some _ =>
    match parse to_ with
    | none => ⟨.ok .excV, false⟩
    | some _ =>
      let _ := active
      ⟨sendReceipt env, true⟩

/-- Python-level return value of switch_state. -/
inductive SwitchStateRet
  | onS
  | offS
  | noneS
  | errMsg (m : PyMsg)
  | errOs
deriving DecidableEq, Repr

/-- switch_state (lines 301-316): on transport success the payload is
decrypted and byte 10 inspected: 0 gives 'off', 255 gives 'on', any
other value falls through both branches and the function returns
Python None.  Accessing byte 10 of a decrypted payload shorter than
11 bytes raises IndexError. -/
def switch_state_run (dec : List Nat → List Nat)
    (env : Nat → AttemptEvent) : Except PyError SwitchStateRet :=
  match send env with
  | ⟨.ok payload, _, _⟩ =>
    let d := dec payload
    if 11 ≤ d.length then
      if d.getD 10 0 = 0 then .ok .offS
      else if d.getD 10 0 = 255 then .ok .onS
      else .ok .noneS
    else .error .indexError
  | ⟨.fail m, _, _⟩ => .ok (.errMsg m)
  | ⟨.osAbort, _, _⟩ => .ok .errOs
  | ⟨.crash, _, _⟩ => .error .indexError
  | ⟨.nameError, _, _⟩ => .error .nameError

/- ---------------------------------------------------------------
Helper lemmas about the send loop.
--------------------------------------------------------------- -/

theorem sendLoop_step (env : Nat → AttemptEvent) (b i : Nat) (last : Option PyMsg) :
    sendLoop env (b + 1) i last =
      match attemptStep (env i) with
      | .sendFail => ⟨.osAbort, true, i + 1⟩
      | .timedOut => sendLoop env b (i + 1) (some .timeoutMsg)
      | .badData => sendLoop env b (i + 1) (some .badDataMsg)
      | .success p => ⟨.ok p, true, i + 1⟩
      | .crashed => ⟨.crash, false, i + 1⟩ := by
  cases last <;> rfl

theorem sendLoop_success (env : Nat → AttemptEvent) (b i : Nat) (last : Option PyMsg)
    (p : List Nat) (h : attemptStep (env i) = .success p) :
    sendLoop env (b + 1) i last = ⟨.ok p, true, i + 1⟩ := by
  rw [sendLoop_step, h]

theorem sendLoop_badData (env : Nat → AttemptEvent) (b i : Nat) (last : Option PyMsg)
    (h : attemptStep (env i) = .badData) :
    sendLoop env (b + 1) i last = sendLoop env b (i + 1) (some .badDataMsg) := by
  rw [sendLoop_step, h]

theorem sendLoop_timedOut (env : Nat → AttemptEvent) (b i : Nat) (last : Option PyMsg)
    (h : attemptStep (env i) = .timedOut) :
    sendLoop env (b + 1) i last = sendLoop env b (i + 1) (some .timeoutMsg) := by
  rw [sendLoop_step, h]

theorem sendLoop_sendFail (env : Nat → AttemptEvent) (b i : Nat) (last : Option PyMsg)
    (h : attemptStep (env i) = .sendFail) :
    sendLoop env (b + 1) i last = ⟨.osAbort, true, i + 1⟩ := by
  rw [sendLoop_step, h]

theorem sendLoop_crashed (env : Nat → AttemptEvent) (b i : Nat) (last : Option PyMsg)
    (h : attemptStep (env i) = .crashed) :
    sendLoop env (b + 1) i last = ⟨.crash, false, i + 1⟩ := by
  rw [sendLoop_step, h]

theorem sendLoop_timeout_all (env : Nat → AttemptEvent) :
    ∀ b i last, 0 < b → (∀ j, j < b → env (i + j) = .timeout) →
    sendLoop env b i last = ⟨.fail .timeoutMsg, true, i + b⟩ := by
  intro b
  induction b with
  | zero => intro i last h _; omega
  | succ b ih =>
    intro i last _ hall
    have h0 : env i = .timeout := by simpa using hall 0 (Nat.succ_pos b)
    have hstep : attemptStep (env i) = .timedOut := by rw [h0]; rfl
    rw [sendLoop_timedOut env b i last hstep]
    cases b with
    | zero => simp [sendLoop]
    | succ b' =>
      have hrec := ih (i + 1) (some .timeoutMsg) (Nat.succ_pos b')
        (fun j hj => by
          have h1 : i + 1 + j = i + (j + 1) := by omega
          rw [h1]
          exact hall (j + 1) (by omega))
      have h2 : i + 1 + (b' + 1) = i + (b' + 1 + 1) := by omega
      rw [h2] at hrec
      exact hrec

theorem sendLoop_fail_elim (env : Nat → AttemptEvent) :
    ∀ b i last m, (sendLoop env b i last).outcome = .fail m →
      (sendLoop env b i last).attempts = i + b ∧
      ((b = 0 ∧ last = some m) ∨
        (0 < b ∧ eventErr (env (i + b - 1)) = some m)) := by
  intro b
  induction b with
  | zero =>
    intro i last m h
    cases last with
    | some m' =>
      have hm : SendOutcome.fail m' = .fail m := h
      cases hm
      exact ⟨by simp [sendLoop], Or.inl ⟨rfl, rfl⟩⟩
    | none => exact absurd h (by simp [sendLoop])
  | succ b ih =>
    intro i last m h
    rcases hstep : attemptStep (env i) with p | _ | _ | _ | _
    · rw [sendLoop_success env b i last p hstep] at h
      simp at h
    · -- badData
      rw [sendLoop_badData env b i last hstep] at h ⊢
      obtain ⟨ha, hd⟩ := ih (i + 1) (some .badDataMsg) m h
      refine ⟨by rw [ha]; omega, Or.inr ⟨Nat.succ_pos b, ?_⟩⟩
      rcases hd with ⟨hb0, hlast⟩ | ⟨hbpos, herr⟩
      · subst hb0
        cases hlast
        have h1 : i + (0 + 1) - 1 = i := by omega
        rw [h1]
        simp [eventErr, hstep]
      · have h1 : i + (b + 1) - 1 = i + 1 + b - 1 := by omega
        rw [h1]
        exact herr
    · -- timedOut
      rw [sendLoop_timedOut env b i last hstep] at h ⊢
      obtain ⟨ha, hd⟩ := ih (i + 1) (some .timeoutMsg) m h
      refine ⟨by rw [ha]; omega, Or.inr ⟨Nat.succ_pos b, ?_⟩⟩
      rcases hd with ⟨hb0, hlast⟩ | ⟨hbpos, herr⟩
      · subst hb0
        cases hlast
        have h1 : i + (0 + 1) - 1 = i := by omega
        rw [h1]
        simp [eventErr, hstep]
      · have h1 : i + (b + 1) - 1 = i + 1 + b - 1 := by omega
        rw [h1]
        exact herr
    · rw [sendLoop_sendFail env b i last hstep] at h
      simp at h
    · rw [sendLoop_crashed env b i last hstep] at h
      simp at h

theorem sendLoop_closed_iff (env : Nat → AttemptEvent) :
    ∀ b i last, (sendLoop env b i last).closed = true ↔
      (sendLoop env b i last).outcome ≠ .crash := by
  intro b
  induction b with
  | zero =>
    intro i last
    cases last <;> simp [sendLoop]
  | succ b ih =>
    intro i last
    rcases hstep : attemptStep (env i) with p | _ | _ | _ | _
    · rw [sendLoop_success env b i last p hstep]
      simp
    · rw [sendLoop_badData env b i last hstep]
      exact ih (i + 1) (some .badDataMsg)
    · rw [sendLoop_timedOut env b i last hstep]
      exact ih (i + 1) (some .timeoutMsg)
    · rw [sendLoop_sendFail env b i last hstep]
      simp
    · rw [sendLoop_crashed env b i last hstep]
      simp

/- ---------------------------------------------------------------
Claim theorems.
--------------------------------------------------------------- -/

/-- C1: a `send` call whose attempts all time out performs exactly
`retryBudget` (= 3) send-and-wait attempts and returns the failure
result with error 'Timeout'; more generally, whenever `send` returns
a failure result its attempt count is the full budget and the
returned error is the one recorded on the last attempt. -/
theorem send_retry_exhaustion (env : Nat → AttemptEvent) :
    ((∀ i, i < retryBudget → env i = .timeout) →
      send env = ⟨.fail .timeoutMsg, true, retryBudget⟩) ∧
    (∀ m, (send env).outcome = .fail m →
      (send env).attempts = retryBudget ∧
        eventErr (env (retryBudget - 1)) = some m) := by
  constructor
  · intro hall
    have := sendLoop_timeout_all env retryBudget 0 none (by decide)
      (fun j hj => by simpa using hall j hj)
    simpa [send] using this
  · intro m h
    have := sendLoop_fail_elim env retryBudget 0 none m h
    rcases this with ⟨ha, hd⟩
    refine ⟨by simpa using ha, ?_⟩
    rcases hd with ⟨hb0, _⟩ | ⟨_, herr⟩
    · exact absurd hb0 (by decide)
    · simpa using herr

/-- C1 witness: with every attempt timing out, `send` fails with
'Timeout' after exactly 3 attempts and closes the socket. -/
theorem send_retry_exhaustion_witness :
    send (fun _ => .timeout) = ⟨.fail .timeoutMsg, true, retryBudget⟩ :=
  (send_retry_exhaustion (fun _ => .timeout)).1 (fun _ _ => rfl)

/-- C2: a received reply is accepted by the send loop iff its byte at
offset 1 is 66 (0x42) and the bytes from offset 9 onward have a
length that is a multiple of 16; a reply with the correct marker but
a misaligned payload is classified bad data, records 'Bad return
data' in the message variable, and is never a success. -/
theorem send_reply_validation (msg : List Nat) (h : 2 ≤ msg.length) :
    (attemptStep (.recv msg) = .success (msg.drop 9) ↔
      (msg.getD 1 0 = 66 ∧ (msg.drop 9).length % 16 = 0)) ∧
    (msg.getD 1 0 = 66 → (msg.drop 9).length % 16 ≠ 0 →
      attemptStep (.recv msg) = .badData ∧
        eventErr (.recv msg) = some .badDataMsg ∧
        ∀ p, attemptStep (.recv msg) ≠ .success p) := by
  rcases msg with _ | ⟨m0, msg⟩
  · simp at h
  rcases msg with _ | ⟨m1, rest⟩
  · simp at h
  have hd9 : (m0 :: m1 :: rest).drop 9 = rest.drop 7 := rfl
  have hg : (m0 :: m1 :: rest).getD 1 0 = m1 := rfl
  have hstepEq : attemptStep (.recv (m0 :: m1 :: rest)) =
      if m1 = 66 ∧ (rest.drop 7).length % 16 = 0 then
        .success (rest.drop 7) else .badData := rfl
  rw [hd9, hg, hstepEq]
  by_cases hc : m1 = 66 ∧ (rest.drop 7).length % 16 = 0
  · rw [if_pos hc]
    refine ⟨⟨fun _ => hc, fun _ => rfl⟩, ?_⟩
    intro _ hlen
    exact absurd hc.2 hlen
  · rw [if_neg hc]
    have hbadNe : ∀ p : List Nat, StepResult.badData ≠ .success p := by
      intro p hp
      cases hp
    refine ⟨⟨fun hbad => absurd hbad (hbadNe _), fun hcc => absurd hcc hc⟩, ?_⟩
    intro h66 hlen
    have hstep : attemptStep (.recv (m0 :: m1 :: rest)) = .badData := by
      rw [hstepEq, if_neg hc]
    refine ⟨rfl, by simp [eventErr, hstep], hbadNe⟩

/-- C2 witness: a reply with the correct marker byte 66 but a 1-byte
(non-multiple-of-16) remainder is classified bad data. -/
theorem send_reply_validation_witness :
    attemptStep (.recv [0, 66, 0, 0, 0, 0, 0, 0, 0, 1]) = .badData ∧
    eventErr (.recv [0, 66, 0, 0, 0, 0, 0, 0, 0, 1]) = some .badDataMsg :=
  ⟨((send_reply_validation [0, 66, 0, 0, 0, 0, 0, 0, 0, 1] (by decide)).2
      (by decide) (by decide)).1,
   ((send_reply_validation [0, 66, 0, 0, 0, 0, 0, 0, 0, 1] (by decide)).2
      (by decide) (by decide)).2.1⟩

/-- C4: packing a timer's (active, Monday-first 7-day repeat mask)
pair into its wire byte as set_timer does, then unpacking it as
timer_query does, returns the original pair. -/
theorem timer_byte_roundtrip (active : Bool) (rep : List Bool)
    (h : rep.length = 7) :
    decode_active (encode_repeat active rep) = active ∧
    decode_repeat (encode_repeat active rep) = rep := by
  rcases rep with _ | ⟨b1, rep⟩
  · simp at h
  rcases rep with _ | ⟨b2, rep⟩
  · simp at h
  rcases rep with _ | ⟨b3, rep⟩
  · simp at h
  rcases rep with _ | ⟨b4, rep⟩
  · simp at h
  rcases rep with _ | ⟨b5, rep⟩
  · simp at h
  rcases rep with _ | ⟨b6, rep⟩
  · simp at h
  rcases rep with _ | ⟨b7, rep⟩
  · simp at h
  rcases rep with _ | ⟨b8, rep⟩
  · revert active b1 b2 b3 b4 b5 b6 b7
    decide
  · simp at h

/-- C4 witness: round trip at active = true, mask '1111100'
(Monday to Friday). -/
theorem timer_byte_roundtrip_witness :
    decode_active (encode_repeat true
      [true, true, true, true, true, false, false]) = true ∧
    decode_repeat (encode_repeat true
      [true, true, true, true, true, false, false]) =
      [true, true, true, true, true, false, false] :=
  timer_byte_roundtrip true [true, true, true, true, true, false, false]
    (by decide)

/-- C10: in both timer_query and set_timer an explicitly passed
delta_time of 0 is indistinguishable from omitting the argument (the
falsy check replaces it by time.timezone), so a caller in a non-UTC
timezone cannot request a zero time adjustment. -/
theorem delta_time_zero_falsy (tz : Int) :
    timer_query_delta tz (some 0) = timer_query_delta tz none ∧
    set_timer_delta tz (some 0) = set_timer_delta tz none ∧
    (tz ≠ 0 →
      timer_query_delta tz (some 0) ≠ 0 ∧ set_timer_delta tz (some 0) ≠ 0) := by
  refine ⟨by simp [timer_query_delta], by simp [set_timer_delta], fun h => ⟨?_, ?_⟩⟩
  · simpa [timer_query_delta] using h
  · simpa [set_timer_delta] using h

/-- C10 witness: at a concrete non-UTC offset (3600 s). -/
theorem delta_time_zero_falsy_witness :
    timer_query_delta 3600 (some 0) = timer_query_delta 3600 none ∧
    set_timer_delta 3600 (some 0) = set_timer_delta 3600 none ∧
    (timer_query_delta 3600 (some 0) ≠ 0 ∧ set_timer_delta 3600 (some 0) ≠ 0) :=
  ⟨(delta_time_zero_falsy 3600).1, (delta_time_zero_falsy 3600).2.1,
   (delta_time_zero_falsy 3600).2.2 (by decide)⟩

theorem toBytesBE_length : ∀ k n, (toBytesBE k n).length = k := by
  intro k
  induction k with
  | zero => intro n; rfl
  | succ k ih =>
    intro n
    simp [toBytesBE, ih]

theorem opBody_length (op : Operation) (hop : op.valid) :
    (opBody op).length = 9 ∨ (opBody op).length = 25 := by
  cases op with
  | search mac =>
    left
    simp [opBody, Operation.valid] at hop ⊢
    omega
  | setTimer timer rep hour minute onOff =>
    right
    cases onOff <;> simp [opBody]
  | setAM active from_ to_ =>
    right
    simp [opBody, toBytesBE_length]
  | deleteAM =>
    right
    simp [opBody]
  | _ =>
    left
    simp [opBody]

/-- C3: for every command-set operation (within the byte-width domain
of its format fields) and every 6-byte MAC, assemble_command produces
exactly the plaintext prefix 01 40 MAC, one length byte equal to the
encrypted block's length, then the encryption of
00 ++ packet ++ device ++ body, whose length is a multiple of 16 —
so the cipher's invalid-block-size failure is unreachable. -/
theorem assemble_command_frame (blockEnc : List Nat → List Nat)
    (hlen : ∀ l, (blockEnc l).length = l.length)
    (mac : List Nat) (_hmac : mac.length = 6)
    (op : Operation) (hop : op.valid) :
    (cmdHeader ++ opBody op).length % 16 = 0 ∧
    assemble_command blockEnc mac (opBody op) =
      .ok (0x01 :: 0x40 :: (mac ++
        (cmdHeader ++ opBody op).length :: blockEnc (cmdHeader ++ opBody op))) := by
  have hhead : cmdHeader.length = 7 := rfl
  have hb : (cmdHeader ++ opBody op).length = 16 ∨
      (cmdHeader ++ opBody op).length = 32 := by
    rcases opBody_length op hop with h9 | h25
    · left
      simp [List.length_append, hhead, h9]
    · right
      simp [List.length_append, hhead, h25]
  have hmod : (cmdHeader ++ opBody op).length % 16 = 0 := by
    rcases hb with h | h <;> rw [h]
  refine ⟨hmod, ?_⟩
  have henc : encrypt blockEnc (cmdHeader ++ opBody op) =
      .ok (blockEnc (cmdHeader ++ opBody op)) := by
    rw [encrypt, if_pos hmod]
  rw [assemble_command, henc]
  have hsmall : (blockEnc (cmdHeader ++ opBody op)).length ≤ 255 := by
    rw [hlen]
    rcases hb with h | h <;> rw [h] <;> decide
  show (if (blockEnc (cmdHeader ++ opBody op)).length ≤ 255 then
      Except.ok (cmdInit mac ++ (blockEnc (cmdHeader ++ opBody op)).length ::
        blockEnc (cmdHeader ++ opBody op))
    else Except.error CipherErr.byteOverflow) =
    Except.ok (0x01 :: 0x40 :: (mac ++
      (cmdHeader ++ opBody op).length :: blockEnc (cmdHeader ++ opBody op)))
  rw [if_pos hsmall, hlen]
  rfl

/-- C3 witness: the heartbeat frame at a concrete 6-byte MAC and the
identity block transform. -/
theorem assemble_command_frame_witness :
    (cmdHeader ++ opBody .heartbeat).length % 16 = 0 ∧
    assemble_command id [1, 2, 3, 4, 5, 6] (opBody .heartbeat) =
      .ok (0x01 :: 0x40 :: ([1, 2, 3, 4, 5, 6] ++
        (cmdHeader ++ opBody .heartbeat).length :: id (cmdHeader ++ opBody .heartbeat))) :=
  assemble_command_frame id (fun _ => rfl) [1, 2, 3, 4, 5, 6] (by decide)
    .heartbeat trivial

/-- C5 counterexample: with a specific (non-wildcard) MAC filter,
find_sockets raises an uncaught IndexError when no reply is received
(instead of returning an empty result), and when a reply from a
different device is received first, it returns that reply unfiltered
(its MAC field [1,2,3,4,5,6] is not the filter value
'00 00 00 00 00 01'). -/
theorem find_sockets_filter_counterexample :
    find_sockets id "00 00 00 00 00 01" wildIp [] =
      ⟨.error .indexError, true⟩ ∧
    find_sockets id "00 00 00 00 00 01" wildIp
        [[0, 66, 0, 0, 0, 0, 0, 0, 0] ++
          ([0, 0, 0, 0, 0, 0, 0, 0, 9, 9, 9, 9, 1, 2, 3, 4, 5, 6] ++
            List.replicate 14 0)] =
      ⟨.ok (.single ⟨[1, 2, 3, 4, 5, 6], [9, 9, 9, 9]⟩), true⟩ := by
  constructor <;> rfl

/-- C5 amended: with wildcard filters find_sockets returns the list
(possibly empty) of all decoded valid replies; with a specific filter
it returns the first decoded reply when one exists — replies are not
filtered, so its MAC field is whatever the first reply contained —
and raises an uncaught IndexError when none exists. -/
theorem find_sockets_filter (dec : List Nat → List Nat) (mac ip : String)
    (replies : List (List Nat)) (xs : List SocketRec)
    (h : collectSockets dec replies = .ok xs) :
    (mac = wildMac ∧ ip = wildIp →
      find_sockets dec mac ip replies = ⟨.ok (.list xs), true⟩) ∧
    (¬(mac = wildMac ∧ ip = wildIp) →
      (xs = [] → find_sockets dec mac ip replies = ⟨.error .indexError, true⟩) ∧
      (∀ x t, xs = x :: t →
        find_sockets dec mac ip replies = ⟨.ok (.single x), true⟩)) := by
  by_cases hw : mac = wildMac ∧ ip = wildIp
  · have hcond : ¬(mac ≠ wildMac ∨ ip ≠ wildIp) := by
      intro hc
      rcases hc with hc | hc
      exacts [hc hw.1, hc hw.2]
    refine ⟨fun _ => ?_, fun hc => absurd hw hc⟩
    simp only [find_sockets, h]
    rw [if_neg hcond]
  · have hcond : mac ≠ wildMac ∨ ip ≠ wildIp := by
      rcases not_and_or.mp hw with hc | hc
      exacts [Or.inl hc, Or.inr hc]
    refine ⟨fun hww => absurd hww hw, fun _ => ⟨?_, ?_⟩⟩
    · rintro rfl
      simp only [find_sockets, h]
      rw [if_pos hcond]
    · rintro x t rfl
      simp only [find_sockets, h]
      rw [if_pos hcond]

/-- C5 witness: wildcard filters with no replies give the empty
list. -/
theorem find_sockets_filter_witness :
    find_sockets id wildMac wildIp [] = ⟨.ok (.list []), true⟩ :=
  (find_sockets_filter id wildMac wildIp [] [] rfl).1 ⟨rfl, rfl⟩

/-- C6 (code bug): in an environment where the device acknowledges on
the first attempt, the delegated set_timer call returns the success
flag True, but set_countdown — which has no return statement —
returns Python None instead of that flag. -/
theorem set_countdown_drops_result :
    set_timer_run
        (fun _ => .recv ([0, 66, 0, 0, 0, 0, 0, 0, 0] ++ List.replicate 16 0)) =
      .ok .trueV ∧
    set_countdown_run
        (fun _ => .recv ([0, 66, 0, 0, 0, 0, 0, 0, 0] ++ List.replicate 16 0)) =
      .ok .noneV ∧
    PyRet.trueV ≠ PyRet.noneV := by
  refine ⟨rfl, rfl, by decide⟩

/-- C7 counterexample: switch called with an argument other than
'on'/'off' does not return an error value — it terminates with an
uncaught UnboundLocalError (though indeed without any network
send). -/
theorem switch_invalid_arg_counterexample :
    switch_run (fun _ => .timeout) "toggle" = ⟨.error .unboundLocal, false⟩ := by
  rfl

/-- C7 amended: set_absence_mode returns the caught exception value
immediately and without any network send when a date string fails to
parse; switch with an argument other than 'on'/'off' also performs no
network send, but terminates with an uncaught UnboundLocalError
instead of returning an error value. -/
theorem invalid_input_no_send :
    (∀ (parse : String → Option Int) (env : Nat → AttemptEvent)
        (active : Bool) (from_ to_ : String),
      (parse from_ = none ∨ parse to_ = none) →
      set_absence_mode_run parse env active from_ to_ = ⟨.ok .excV, false⟩) ∧
    (∀ (env : Nat → AttemptEvent) (s : String), s ≠ "on" → s ≠ "off" →
      switch_run env s = ⟨.error .unboundLocal, false⟩) := by
  constructor
  · intro parse env active from_ to_ hnone
    rcases hf : parse from_ with _ | v
    · simp [set_absence_mode_run, hf]
    · rcases ht : parse to_ with _ | w
      · simp [set_absence_mode_run, hf, ht]
      · rcases hnone with hn | hn
        · rw [hf] at hn
          cases hn
        · rw [ht] at hn
          cases hn
  · intro env s h1 h2
    rw [switch_run, if_neg h1, if_neg h2]

/-- C7 witness: concrete unparseable dates and a concrete bad switch
argument. -/
theorem invalid_input_no_send_witness :
    set_absence_mode_run (fun _ => none) (fun _ => .timeout) true "x" "y" =
      ⟨.ok .excV, false⟩ ∧
    switch_run (fun _ => .timeout) "onn" = ⟨.error .unboundLocal, false⟩ :=
  ⟨invalid_input_no_send.1 (fun _ => none) (fun _ => .timeout) true "x" "y"
      (Or.inl rfl),
   invalid_input_no_send.2 (fun _ => .timeout) "onn" (by decide) (by decide)⟩

/-- C8 counterexample: a 1-byte datagram received on the first
attempt makes `send` terminate by an uncaught IndexError with the
socket left open (closed = false). -/
theorem send_short_datagram_counterexample :
    send (fun _ => .recv [0]) = ⟨.crash, false, 1⟩ := by
  rfl

/-- C8 amended: `send` closes its socket on every exit path except
the uncaught IndexError raised by a datagram shorter than 2 bytes
(closed ↔ no crash); find_sockets closes its socket whenever the
collection loop finishes, and leaves it open exactly when the loop
terminates by an uncaught IndexError (short datagram, or valid reply
whose decrypted payload is shorter than 12 bytes). -/
theorem socket_release (env : Nat → AttemptEvent) (dec : List Nat → List Nat)
    (mac ip : String) (replies : List (List Nat)) :
    ((send env).closed = true ↔ (send env).outcome ≠ .crash) ∧
    (∀ xs, collectSockets dec replies = .ok xs →
      (find_sockets dec mac ip replies).closed = true) ∧
    (∀ e, collectSockets dec replies = .error e →
      (find_sockets dec mac ip replies).closed = false) := by
  refine ⟨sendLoop_closed_iff env retryBudget 0 none, ?_, ?_⟩
  · intro xs h
    simp only [find_sockets, h]
    by_cases hcond : mac ≠ wildMac ∨ ip ≠ wildIp
    · rw [if_pos hcond]
      cases xs <;> rfl
    · rw [if_neg hcond]
  · intro e h
    simp only [find_sockets, h]

/-- C8 witness: an all-timeout send closes its socket, and a
find_sockets call with no replies closes its socket. -/
theorem socket_release_witness :
    (send (fun _ => .timeout)).closed = true ∧
    (find_sockets id wildMac wildIp []).closed = true :=
  ⟨(socket_release (fun _ => .timeout) id wildMac wildIp []).1.mpr (by decide),
   (socket_release (fun _ => .timeout) id wildMac wildIp []).2.1 [] rfl⟩

/-- C9: when the transport succeeds and the decrypted payload has a
byte 10, switch_state returns 'off' if that byte is 0, 'on' if it is
255, and Python None for any other value. -/
theorem switch_state_byte10 (dec : List Nat → List Nat)
    (env : Nat → AttemptEvent) (payload : List Nat)
    (hok : (send env).outcome = .ok payload)
    (hlen : 11 ≤ (dec payload).length) :
    switch_state_run dec env =
      .ok (if (dec payload).getD 10 0 = 0 then .offS
        else if (dec payload).getD 10 0 = 255 then .onS else .noneS) := by
  rcases hs : send env with ⟨o, c, a⟩
  rw [hs] at hok
  simp only at hok
  subst hok
  simp only [switch_state_run, hs]
  rw [if_pos hlen]
  split_ifs <;> rfl

/-- C9 witness: a successful transport whose decrypted payload has
byte 10 equal to 7 makes switch_state return None. -/
theorem switch_state_byte10_witness :
    switch_state_run id
      (fun _ => .recv ([0, 66, 0, 0, 0, 0, 0, 0, 0] ++ List.replicate 16 7)) =
      .ok .noneS := by
  have h := switch_state_byte10 id
    (fun _ => .recv ([0, 66, 0, 0, 0, 0, 0, 0, 0] ++ List.replicate 16 7))
    (List.replicate 16 7) (by decide) (by decide)
  rw [h]
  rfl

end Wifisocket
